import Mathlib

/-!
Verification of the response-interpretation / risk-classification pipeline of
`src/app.py` (a single-page dashboard that asks a generative-text endpoint for
a JSON list of "issues", parses the reply, classifies risk, and charts the
dated records).

The embedding below translates, from the source:
  - the markdown-fence stripping and JSON parsing of the model completion
    (`fetch_issues`, lines 50-67),
  - the non-200 HTTP error path (lines 44-48),
  - `preprocess_issues` (lines 69-75, pandas date coercion / dropna / sort),
  - `assess_risk` (lines 77-87),
  - the main script's dataflow (lines 98-113).

Python strings are modeled as `List Char`; Python dict/list values produced by
`json.loads` are modeled by the inductive `Json`; exceptions are modeled with
`Option`/`Except`.  Library calls (`json.loads`, `pd.to_datetime`) are modeled
by executable Lean functions; simplifications are noted at each definition.
-/

namespace ProblemsApp

/-- A JSON value, the result type of `json.loads`.  Integer literals are
held as `num`; a non-integer numeric literal (fraction/exponent, or the
`NaN`/`Infinity` constants Python accepts) is held verbatim as `fnum` —
Python converts it to a float, a lossy representation step no claim
compares across differently spelled literals. -/
inductive Json where
  | null
  | bool (b : Bool)
  | num (n : Int)
  | fnum (lit : String)
  | str (s : String)
  | arr (elems : List Json)
  | obj (fields : List (String × Json))

/-- The backtick character (written via its code point so that the source file
itself contains no stray backtick). -/
def btick : Char := Char.ofNat 96

/-- The code points Python's no-argument `str.strip()` removes: the ASCII
whitespace `\t` `\n` `\x0b` `\x0c` `\r` and space, the file/group/record/unit
separators `\x1c`-`\x1f`, `\x85` (next line), `\xa0` (no-break space), and the
Unicode space separators U+1680, U+2000-U+200A, U+2028, U+2029, U+202F,
U+205F, U+3000. -/
def pyWsCodes : List Nat :=
  [9, 10, 11, 12, 13, 28, 29, 30, 31, 32, 133, 160, 5760,
   8192, 8193, 8194, 8195, 8196, 8197, 8198, 8199, 8200, 8201, 8202,
   8232, 8233, 8239, 8287, 12288]

/-- Whitespace stripped by Python's no-argument `str.strip()`. -/
def isPyWs (c : Char) : Bool := pyWsCodes.contains c.toNat

/-- The whitespace accepted by the JSON grammar (`json.loads`): space, tab,
newline, carriage return.  Note this is a strict subset of `isPyWs`. -/
def isJsonWs (c : Char) : Bool :=
  c == ' ' || c == '\t' || c == '\n' || c == '\r'

/-- The character set of the Python call `raw_text.strip("\x60\x60\x60json")`
(line 58): `str.strip` with an argument strips by character SET, here the five
characters backtick, j, s, o, n. -/
def inJsonFenceSet (c : Char) : Bool :=
  c == btick || c == 'j' || c == 's' || c == 'o' || c == 'n'

/-- The character set of `.strip("\x60\x60\x60")` (lines 58 and 60): just the
backtick. -/
def isBtick (c : Char) : Bool := c == btick

/-- Python's `s.strip(chars)` / `s.strip()`: remove characters satisfying `p`
from both ends of the string. -/
def pyStrip (p : Char → Bool) (l : List Char) : List Char :=
  ((l.dropWhile p).reverse.dropWhile p).reverse

/-- Skip JSON whitespace (used inside the `json.loads` model). -/
def skipJsonWs (cs : List Char) : List Char := cs.dropWhile isJsonWs

/-- Single-character escapes accepted after a backslash inside a JSON string
literal. -/
def escPairs : List (Char × Char) :=
  [('"', '"'), ('\\', '\\'), ('/', '/'), ('n', '\n'),
   ('t', '\t'), ('r', '\r'), ('b', Char.ofNat 8), ('f', Char.ofNat 12)]

/-- Decode one escape character via the table above. -/
def escChar (c : Char) : Option Char := List.lookup c escPairs

/-- Hexadecimal digit value (for `\uXXXX` escapes). -/
def hexVal (c : Char) : Option Nat :=
  if c.isDigit then some (c.toNat - 48)
  else if 'a' ≤ c ∧ c ≤ 'f' then some (c.toNat - 87)
  else if 'A' ≤ c ∧ c ≤ 'F' then some (c.toNat - 55)
  else none

/-- Parse the remainder of a JSON string literal (after the opening quote),
returning the decoded characters and the input after the closing quote.
As in `json.loads` (strict mode), an unescaped control character below
`\x20` is rejected, and any `\uXXXX` with four hex digits is accepted.
`Char.ofNat` maps a surrogate code unit to `\x00` and a surrogate PAIR
decodes as two such units rather than one astral character — a value-level
simplification on the accept/reject boundary no claim crosses. -/
def parseStrRest : List Char → Option (List Char × List Char)
  | [] => none
  | '"' :: rest => some ([], rest)
  | '\\' :: 'u' :: h1 :: h2 :: h3 :: h4 :: more =>
    match hexVal h1, hexVal h2, hexVal h3, hexVal h4, parseStrRest more with
    | some x1, some x2, some x3, some x4, some (s, r) =>
      some (Char.ofNat (4096 * x1 + 256 * x2 + 16 * x3 + x4) :: s, r)
    | _, _, _, _, _ => none
  | '\\' :: c :: rest =>
    match escChar c, parseStrRest rest with
    | some e, some (s, r) => some (e :: s, r)
    | _, _ => none
  | c :: rest =>
    if c.toNat < 32 then none
    else
      match parseStrRest rest with
      | some (s, r) => some (c :: s, r)
      | none => none

/-- Accumulate decimal digits into a number. -/
def digitsVal : List Char → Nat → Nat
  | [], acc => acc
  | c :: rest, acc => digitsVal rest (10 * acc + (c.toNat - 48))

/-- The integer part of a JSON number: `0`, or a nonzero digit followed by
digits — a leading zero does NOT swallow following digits, exactly as in the
`json` module's number pattern, so `01` leaves `1` unconsumed and the
surrounding grammar then rejects it. -/
def parseIntPart : List Char → Option (List Char × List Char)
  | '0' :: rest => some (['0'], rest)
  | c :: rest =>
    if c.isDigit then
      some (c :: rest.takeWhile Char.isDigit, rest.dropWhile Char.isDigit)
    else none
  | [] => none

/-- The optional fraction group `.digits`; an incomplete group (a dot with no
digit) is left unconsumed, as in the `json` module's regex. -/
def parseFracPart : List Char → List Char × List Char
  | '.' :: rest =>
    let ds := rest.takeWhile Char.isDigit
    if ds.isEmpty then ([], '.' :: rest)
    else ('.' :: ds, rest.dropWhile Char.isDigit)
  | cs => ([], cs)

/-- The optional exponent group `e[+-]?digits`; an incomplete group is left
unconsumed, as in the `json` module's regex. -/
def parseExpPart : List Char → List Char × List Char
  | c :: rest =>
    if c == 'e' || c == 'E' then
      match rest with
      | sgn :: rest2 =>
        if sgn == '+' || sgn == '-' then
          let ds := rest2.takeWhile Char.isDigit
          if ds.isEmpty then ([], c :: sgn :: rest2)
          else (c :: sgn :: ds, rest2.dropWhile Char.isDigit)
        else
          let ds := rest.takeWhile Char.isDigit
          if ds.isEmpty then ([], c :: rest)
          else (c :: ds, rest.dropWhile Char.isDigit)
      | [] => ([], [c])
    else ([], c :: rest)
  | [] => ([], [])

/-- Parse a JSON numeric literal, following the `json` module's pattern
`-?(0|[1-9][0-9]*)(.[0-9]+)?([eE][+-]?[0-9]+)?`: a plain integer becomes
`Json.num`, a literal with fraction or exponent becomes `Json.fnum` holding
its source spelling. -/
def parseNum (cs : List Char) : Option (Json × List Char) :=
  match cs with
  | '-' :: rest =>
    match parseIntPart rest with
    | none => none
    | some (ip, r1) =>
      let (fp, r2) := parseFracPart r1
      let (ep, r3) := parseExpPart r2
      if fp.isEmpty && ep.isEmpty then
        some (.num (-(digitsVal ip 0 : Int)), r3)
      else some (.fnum (String.mk ('-' :: (ip ++ fp ++ ep))), r3)
  | _ =>
    match parseIntPart cs with
    | none => none
    | some (ip, r1) =>
      let (fp, r2) := parseFracPart r1
      let (ep, r3) := parseExpPart r2
      if fp.isEmpty && ep.isEmpty then
        some (.num (digitsVal ip 0), r3)
      else some (.fnum (String.mk (ip ++ fp ++ ep)), r3)

/-- Mode of the fuel-indexed JSON parser: a single value, the element list of
an array (after `[`), or the member list of an object (after `{`). -/
inductive PMode where
  | value
  | elems
  | members

/-- Fuel-indexed recursive-descent JSON parser.  `parseF fuel .value cs`
parses one JSON value from `cs` (leading JSON whitespace allowed) and returns
it with the unconsumed input; the non-standard constants `NaN`, `Infinity`
and `-Infinity` are accepted as `json.loads` does by default.  The fuel only
bounds nesting depth; the top level supplies enough fuel for any input. -/
def parseF : Nat → PMode → List Char → Option (Json × List Char)
  | 0, _, _ => none
  | Nat.succ n, PMode.value, cs =>
    match skipJsonWs cs with
    | 'n' :: 'u' :: 'l' :: 'l' :: rest => some (.null, rest)
    | 't' :: 'r' :: 'u' :: 'e' :: rest => some (.bool true, rest)
    | 'f' :: 'a' :: 'l' :: 's' :: 'e' :: rest => some (.bool false, rest)
    | 'N' :: 'a' :: 'N' :: rest => some (.fnum "NaN", rest)
    | 'I' :: 'n' :: 'f' :: 'i' :: 'n' :: 'i' :: 't' :: 'y' :: rest =>
      some (.fnum "Infinity", rest)
    | '-' :: 'I' :: 'n' :: 'f' :: 'i' :: 'n' :: 'i' :: 't' :: 'y' :: rest =>
      some (.fnum "-Infinity", rest)
    | '"' :: rest =>
      (match parseStrRest rest with
       | some (s, r) => some (.str (String.mk s), r)
       | none => none)
    | '[' :: rest =>
      (match skipJsonWs rest with
       | ']' :: r => some (.arr [], r)
       | _ => parseF n .elems rest)
    | '{' :: rest =>
      (match skipJsonWs rest with
       | '}' :: r => some (.obj [], r)
       | _ => parseF n .members rest)
    | c :: rest => if c.isDigit || c == '-' then parseNum (c :: rest) else none
    | [] => none
  | Nat.succ n, PMode.elems, cs =>
    match parseF n .value cs with
    | none => none
    | some (v, r) =>
      match skipJsonWs r with
      | ',' :: r2 =>
        (match parseF n .elems r2 with
         | some (.arr vs, r3) => some (.arr (v :: vs), r3)
         | _ => none)
      | ']' :: r2 => some (.arr [v], r2)
      | _ => none
  | Nat.succ n, PMode.members, cs =>
    match skipJsonWs cs with
    | '"' :: r =>
      (match parseStrRest r with
       | none => none
       | some (k, r1) =>
         match skipJsonWs r1 with
         | ':' :: r2 =>
           (match parseF n .value r2 with
            | none => none
            | some (v, r3) =>
              match skipJsonWs r3 with
              | ',' :: r4 =>
                (match parseF n .members r4 with
                 | some (.obj ms, r5) => some (.obj ((String.mk k, v) :: ms), r5)
                 | _ => none)
              | '}' :: r4 => some (.obj [(String.mk k, v)], r4)
              | _ => none)
         | _ => none)
    | _ => none

/-- Model of `json.loads` (line 63): trims surrounding JSON whitespace, parses
one value, and requires the remainder to be empty.  Returns `none` where the
Python call raises `JSONDecodeError`. -/
def json_loads (cs : List Char) : Option Json :=
  match parseF (2 * (pyStrip isJsonWs cs).length + 2) PMode.value
      (pyStrip isJsonWs cs) with
  | some (v, rest) => if (skipJsonWs rest).isEmpty then some v else none
  | none => none

/-- The markdown-fence stripping of lines 56-60 of `fetch_issues`:
if the text starts with three backticks followed by `json`, apply
`.strip("\x60\x60\x60json").strip("\x60\x60\x60").strip()`; otherwise, if it
starts with three backticks, apply `.strip("\x60\x60\x60").strip()`;
otherwise leave it unchanged. -/
def pyFenceStrip (raw : List Char) : List Char :=
  if List.isPrefixOf "```json".data raw then
    pyStrip isPyWs (pyStrip isBtick (pyStrip inJsonFenceSet raw))
  else if List.isPrefixOf "```".data raw then
    pyStrip isPyWs (pyStrip isBtick raw)
  else raw

/-- The response interpreter (lines 55-67): strip an optional markdown fence,
parse the remainder as JSON; on any parse failure the `except` handler makes
the function return the empty list. -/
def interpret (raw : List Char) : Json :=
  match json_loads (pyFenceStrip raw) with
  | some v => v
  | none => Json.arr []

/-- A completion wrapped in a fence with the `json` language tag. -/
def wrapJson (inner : List Char) : List Char :=
  "```json\n".data ++ inner ++ "\n```".data

/-- A completion wrapped in a fence with no language tag. -/
def wrapPlain (inner : List Char) : List Char :=
  "```\n".data ++ inner ++ "\n```".data

/-- A parsed issue record: the field list of the JSON object produced for it
by `json.loads` as a Python dict.  (On duplicate keys Python keeps the last
value while the model's lookup finds the first; no claim involves a record
with duplicate keys.) -/
abbrev Issue := List (String × Json)

/-- Python `i[k]` / key membership for a record. -/
def getField (k : String) (i : Issue) : Option Json := List.lookup k i

/-- Python's ASCII `str.lower()`. -/
def pyLower (s : String) : String := String.mk (s.data.map Char.toLower)

/-- The string `.lower()` is applied to on line 80: `i.get("severity", "")`
when the field is missing or holds a string. -/
def sevStr (i : Issue) : String :=
  match getField "severity" i with
  | some (Json.str s) => s
  | _ => ""

/-- Whether `.lower()` on `i.get("severity", "")` succeeds: the severity field
is absent (the `""` default) or holds a string.  A present non-string value
makes line 80 raise `AttributeError`. -/
def wellFormedSev (i : Issue) : Bool :=
  match getField "severity" i with
  | none => true
  | some (Json.str _) => true
  | some _ => false

/-- The per-record test of line 80: `i.get("severity", "").lower() == "high"`. -/
def isHighSev (i : Issue) : Bool := pyLower (sevStr i) == "high"

/-- `assess_risk` (lines 77-87).  `count` is the length of the raw list;
`high_severity` counts records whose lowered severity equals "high"; the
result is the (color badge, message) pair.  The `Except.error` branch models
the `AttributeError` raised by `.lower()` when some record carries a
non-string severity value (that exception is not caught anywhere). -/
def assess_risk (issues : List Issue) : Except String (String × String) :=
  if issues.all wellFormedSev then
    let count := issues.length
    let high_severity := issues.countP isHighSev
    if count = 0 then Except.ok ("🟢 Green", "No known issues.")
    else if 0 < high_severity ∨ 5 ≤ count then
      Except.ok ("🔴 Red", "Multiple or severe issues detected.")
    else Except.ok ("🟡 Yellow", "Some minor issues found.")
  else Except.error "AttributeError: object has no attribute lower"

/-- Decimal digit value of a character. -/
def digitVal (c : Char) : Option Nat :=
  if c.isDigit then some (c.toNat - 48) else none

/-- Gregorian leap-year rule. -/
def isLeap (y : Nat) : Bool := (y % 4 == 0 && y % 100 != 0) || y % 400 == 0

/-- Days in a month of the Gregorian calendar. -/
def daysInMonth (y m : Nat) : Nat :=
  if m == 2 then (if isLeap y then 29 else 28)
  else if m == 4 || m == 6 || m == 9 || m == 11 then 30
  else 31

/-- The key `y*10000 + m*100 + d` of a string spelling a valid Gregorian
calendar date in the canonical `YYYY-MM-DD` form (so `Nat` order on keys is
chronological order), with no range restriction. -/
def calendarKey (s : String) : Option Nat :=
  match s.data with
  | [y1, y2, y3, y4, '-', m1, m2, '-', d1, d2] =>
    match digitVal y1, digitVal y2, digitVal y3, digitVal y4,
          digitVal m1, digitVal m2, digitVal d1, digitVal d2 with
    | some a, some b, some c, some d, some e, some f, some g, some h =>
      let y := 1000 * a + 100 * b + 10 * c + d
      let m := 10 * e + f
      let dy := 10 * g + h
      if 1 ≤ m ∧ m ≤ 12 ∧ 1 ≤ dy ∧ dy ≤ daysInMonth y m then
        some (10000 * y + 100 * m + dy)
      else none
    | _, _, _, _, _, _, _, _ => none
  | _ => none

/-- Spec-side (claim C6): whether a string spells a valid calendar date (in
the canonical `YYYY-MM-DD` form the prompt requests). -/
def isValidCalendarDate (s : String) : Bool := (calendarKey s).isSome

/-- Model of `pd.to_datetime(cell, errors="coerce")` on one string cell of
the canonical `YYYY-MM-DD` form: a valid calendar date within pandas'
nanosecond-`Timestamp` range becomes its key, everything else becomes `NaT`
(`none`).  `Timestamp.min` is 1677-09-21T00:12:43 and `Timestamp.max` is
2262-04-11T23:47:16, so the date-only strings that coerce successfully are
exactly 1677-09-22 through 2262-04-11; a valid calendar date outside that
window (e.g. "1500-06-15") coerces to `NaT` and is dropped.  Pandas also
parses non-canonical spellings ("20210101", "2021/05/01") and numeric cells
(nanoseconds since epoch); the claims about the frame are therefore scoped
by `dateWellFormed` below, on whose domain this model is faithful. -/
def parseDate (s : String) : Option Nat :=
  match calendarKey s with
  | some k => if 16770922 ≤ k ∧ k ≤ 22620411 then some k else none
  | none => none

/-- The coerced `date` cell of one record (line 71): a missing field is `NaN`
in the frame and coerces to `NaT`; a non-string value or an unparseable string
coerces to `NaT` (`none`). -/
def getDate (i : Issue) : Option Nat :=
  match getField "date" i with
  | some (Json.str s) => parseDate s
  | _ => none

/-- Whether a string has the canonical date SHAPE `dddd-dd-dd` (digits and
dashes in place, validity not yet checked). -/
def isCanonicalDateShape (s : String) : Bool :=
  match s.data with
  | [y1, y2, y3, y4, sep1, m1, m2, sep2, d1, d2] =>
    y1.isDigit && y2.isDigit && y3.isDigit && y4.isDigit && sep1 == '-'
      && m1.isDigit && m2.isDigit && sep2 == '-' && d1.isDigit && d2.isDigit
  | _ => false

/-- The domain on which `getDate` is a faithful model of the `date`-column
coercion: the record's date field is absent, null, or a string of the
canonical `dddd-dd-dd` shape.  Outside this domain pandas' flexible parser
can succeed where the model reports `NaT` (alternate spellings such as
"2021/05/01" or "20210101", and numeric cells read as nanoseconds since
epoch), so the frame-content claims are stated over it. -/
def dateWellFormed (i : Issue) : Bool :=
  match getField "date" i with
  | none => true
  | some Json.null => true
  | some (Json.str s) => isCanonicalDateShape s
  | some _ => false

/-- Whether `pd.DataFrame(issues)` has a `date` column: some record carries
the key.  When it does not, `df["date"]` on line 71 raises `KeyError`. -/
def hasDateCol (issues : List Issue) : Bool :=
  issues.any (fun i => (getField "date" i).isSome)

/-- Insertion step of the sort modeling `df.sort_values("date")`. -/
def insertByDate (p : Nat × Issue) : List (Nat × Issue) → List (Nat × Issue)
  | [] => [p]
  | q :: t => if p.1 ≤ q.1 then p :: q :: t else q :: insertByDate p t

/-- Sort date-keyed rows ascending by date (models `df.sort_values("date")`;
pandas' tie order is unspecified, and no claim depends on it). -/
def sortByDate : List (Nat × Issue) → List (Nat × Issue)
  | [] => []
  | p :: t => insertByDate p (sortByDate t)

/-- The rows surviving `df.dropna(subset=["date"])` (line 72), each paired
with its coerced date. -/
def datedRecords (issues : List Issue) : List (Nat × Issue) :=
  issues.filterMap (fun i => (getDate i).map (fun d => (d, i)))

/-- The chart-ready frame: dated rows sorted ascending by date. -/
def frameRows (issues : List Issue) : List (Nat × Issue) :=
  sortByDate (datedRecords issues)

/-- `preprocess_issues` (lines 69-75): build the frame, coerce the `date`
column, drop `NaT` rows, sort by date.  The error branch is the uncaught
`KeyError` of `df["date"]` when no record has a `date` key (also when
`issues` is empty).  The constant `count` column it adds carries no
information and is omitted. -/
def preprocess_issues (issues : List Issue) : Except String (List (Nat × Issue)) :=
  if hasDateCol issues then Except.ok (frameRows issues)
  else Except.error "KeyError: date"

/-- What the main script renders from a parsed issue list. -/
inductive MainOut where
  | noIssues
  | report (total : Nat) (risk : String × String) (frame : List (Nat × Issue))

/-- The main script's dataflow on the parsed issue list (lines 98-113,
chart styling excluded as presentation): an empty (falsy) list shows the
info message; otherwise `preprocess_issues` runs first (line 103), then the
total metric and `assess_risk` (line 111).  An `Except.error` is an uncaught
exception terminating the action. -/
def runMain (issues : List Issue) : Except String MainOut :=
  if issues.isEmpty then Except.ok MainOut.noIssues
  else do
    let df ← preprocess_issues issues
    let risk ← assess_risk issues
    pure (MainOut.report issues.length risk df)

/-- An HTTP response from the generative endpoint as `fetch_issues` observes
it: status code, body text, and the body decoded as JSON (`none` when
`response.json()` itself raises). -/
structure HttpResponse where
  status : Nat
  text : String
  body : Option Json

/-- Python `j[k]` on a decoded JSON object. -/
def jGet (k : String) : Json → Option Json
  | Json.obj fs => List.lookup k fs
  | _ => none

/-- Python `j[n]` on a decoded JSON array. -/
def jIdx (n : Nat) : Json → Option Json
  | Json.arr xs => xs.get? n
  | _ => none

/-- Require a decoded JSON value to be a string. -/
def jStr : Json → Option String
  | Json.str s => some s
  | _ => none

/-- Line 51: `response.json()["candidates"][0]["content"]["parts"][0]["text"]`;
any failure in the chain raises inside the `try` block. -/
def extractText (j : Json) : Option (List Char) :=
  (((((((jGet "candidates" j).bind (jIdx 0)).bind
    (jGet "content")).bind (jGet "parts")).bind (jIdx 0)).bind
    (jGet "text")).bind jStr).map String.data

/-- The observable outcome of one `fetch_issues` call: the `st.error`
messages shown, the returned value, and the number of HTTP requests made. -/
structure FetchOut where
  errors : List String
  retval : Json
  requestsMade : Nat

/-- `fetch_issues` (lines 18-67) after the single `requests.post` (line 44,
the only request the function ever makes — there is no retry loop): a non-200
status reports an error naming status and body text and returns `[]`
(lines 46-48); otherwise the completion text is extracted, fence-stripped and
parsed, with the `except` handler reporting an error and returning `[]` on
any failure (lines 50-67). -/
def fetch_issues (resp : HttpResponse) : FetchOut :=
  if resp.status ≠ 200 then
    { errors := ["Gemini API error " ++ toString resp.status ++ ": " ++ resp.text],
      retval := Json.arr [], requestsMade := 1 }
  else
    match resp.body.bind extractText with
    | some raw =>
      (match json_loads (pyFenceStrip raw) with
       | some v => { errors := [], retval := v, requestsMade := 1 }
       | none =>
         { errors := ["❌ Could not parse response from Gemini"],
           retval := Json.arr [], requestsMade := 1 })
    | none =>
      { errors := ["❌ Could not parse response from Gemini"],
        retval := Json.arr [], requestsMade := 1 }

/-- Spec-side (claim C1) per-record test: "issues whose severity field,
case-insensitively, equals high". -/
def specHighSev (i : Issue) : Bool :=
  match getField "severity" i with
  | some (Json.str s) => pyLower s == "high"
  | _ => false

/-- Spec-side (claim C1) classifier: rating from `count` and `high_severity`
exactly as the spec's rule states it. -/
def classifySpec (issues : List Issue) : String :=
  if issues.length = 0 then "none"
  else if 0 < issues.countP specHighSev ∨ 5 ≤ issues.length then "high"
  else "caution"

/-- Map the code's color badge to the spec's rating name. -/
def ratingName : String → String
  | "🟢 Green" => "none"
  | "🔴 Red" => "high"
  | "🟡 Yellow" => "caution"
  | _ => "unknown"

/-! ### Helper lemmas -/

theorem isHighSev_eq_specHighSev (i : Issue) : isHighSev i = specHighSev i := by
  unfold isHighSev specHighSev sevStr
  cases hf : getField "severity" i with
  | none => rfl
  | some v => cases v <;> rfl

theorem assess_risk_eq_spec (issues : List Issue)
    (h : issues.all wellFormedSev = true) :
    (assess_risk issues).map (fun p => ratingName p.1)
      = Except.ok (classifySpec issues) := by
  unfold assess_risk classifySpec
  rw [if_pos h, funext isHighSev_eq_specHighSev]
  dsimp only
  split_ifs <;> rfl

/-! ### Claim theorems: risk classifier -/

/-- C1: for every issue list (whose records carry string severities where
present, as the spec's data model prescribes), `assess_risk` returns the
rating determined by `count` = total issues and `high_severity` = issues
whose severity, case-insensitively, equals "high": "none" when `count = 0`,
"high" when `high_severity > 0` or `count >= 5`, "caution" otherwise; and the
four concrete examples of the spec hold. -/
theorem assess_risk_rating_rule (issues : List Issue)
    (h : issues.all wellFormedSev = true) :
    (assess_risk issues).map (fun p => ratingName p.1)
        = Except.ok (classifySpec issues)
    ∧ assess_risk [] = Except.ok ("🟢 Green", "No known issues.")
    ∧ assess_risk [[("severity", Json.str "high")]]
        = Except.ok ("🔴 Red", "Multiple or severe issues detected.")
    ∧ assess_risk (List.replicate 5 [("severity", Json.str "low")])
        = Except.ok ("🔴 Red", "Multiple or severe issues detected.")
    ∧ assess_risk (List.replicate 2 [("severity", Json.str "low")])
        = Except.ok ("🟡 Yellow", "Some minor issues found.") :=
  ⟨assess_risk_eq_spec issues h, rfl, rfl, rfl, rfl⟩

/-- Witness for C1 at a concrete list. -/
theorem assess_risk_rating_rule_witness :
    (assess_risk [[("severity", Json.str "high")]]).map (fun p => ratingName p.1)
      = Except.ok (classifySpec [[("severity", Json.str "high")]]) :=
  (assess_risk_rating_rule [[("severity", Json.str "high")]] (by rfl)).1

/-- C9: `assess_risk` is a deterministic pure function of its input: equal
inputs give equal (level, message) results.  In this shallow embedding the
input list is immutable by construction, matching the source, which only
reads `issues` (via `len` and a generator) and never writes it. -/
theorem assess_risk_deterministic (xs ys : List Issue) (h : xs = ys) :
    assess_risk xs = assess_risk ys := by rw [h]

/-- Witness for C9. -/
theorem assess_risk_deterministic_witness :
    assess_risk [[("severity", Json.str "low")]]
      = assess_risk [[("severity", Json.str "low")]] :=
  assess_risk_deterministic _ _ rfl

/-- C10 counterexample: a record whose severity value is present but not a
string — here the number `5`, which is "not the string high in any letter
case" — does not get counted as non-high-severity: line 80's
`i.get("severity", "").lower()` raises `AttributeError` on it
(`Except.error` in the model), so the claim's parenthetical case fails. -/
theorem assess_risk_nonstring_severity_raises :
    assess_risk [[("severity", Json.num 5)]]
      = Except.error "AttributeError: object has no attribute lower" := rfl

/-- C10 (amended): for every issue record that lacks a severity field — or
whose severity value is a STRING other than "high" in any letter case —
`assess_risk` counts it as non-high-severity via the empty-string default and
never raises on the missing key; hence the rating is computed from the count
alone: "caution" for 1-4 such records (and "none"/"high" at the ends). -/
theorem assess_risk_missing_severity (issues : List Issue)
    (h : ∀ i ∈ issues, getField "severity" i = none
        ∨ ∃ s, getField "severity" i = some (Json.str s) ∧ pyLower s ≠ "high") :
    assess_risk issues =
      Except.ok (if issues.length = 0 then ("🟢 Green", "No known issues.")
        else if 5 ≤ issues.length then
          ("🔴 Red", "Multiple or severe issues detected.")
        else ("🟡 Yellow", "Some minor issues found.")) := by
  have hwf : issues.all wellFormedSev = true := by
    rw [List.all_eq_true]
    intro i hi
    unfold wellFormedSev
    rcases h i hi with hn | ⟨s, hs, _⟩
    · rw [hn]
    · rw [hs]
  have hcount : issues.countP isHighSev = 0 := by
    rw [List.countP_eq_zero]
    intro i hi
    unfold isHighSev sevStr
    rcases h i hi with hn | ⟨s, hs, hne⟩
    · rw [hn]; decide
    · rw [hs]; simpa using hne
  unfold assess_risk
  rw [if_pos hwf, hcount]
  dsimp only
  simp only [lt_self_iff_false, false_or]
  split_ifs <;> rfl

/-- Witness for C10 (amended): one record with no severity field rates
"caution" (Yellow). -/
theorem assess_risk_missing_severity_witness :
    assess_risk [([] : Issue)]
      = Except.ok ("🟡 Yellow", "Some minor issues found.") := by
  have := assess_risk_missing_severity [[]] (by
    intro i hi
    rw [List.mem_singleton] at hi
    subst hi
    exact Or.inl rfl)
  simpa using this

/-! ### Sorting and frame lemmas -/

theorem insertByDate_perm (p : Nat × Issue) (l : List (Nat × Issue)) :
    (insertByDate p l).Perm (p :: l) := by
  induction l with
  | nil => exact List.Perm.refl _
  | cons q t ih =>
    unfold insertByDate
    split
    · exact List.Perm.refl _
    · exact (ih.cons q).trans (List.Perm.swap p q t)

theorem sortByDate_perm (l : List (Nat × Issue)) : (sortByDate l).Perm l := by
  induction l with
  | nil => exact List.Perm.refl _
  | cons p t ih => exact (insertByDate_perm p (sortByDate t)).trans (ih.cons p)

theorem insertByDate_sorted (p : Nat × Issue) (l : List (Nat × Issue))
    (h : l.Pairwise (fun a b => a.1 ≤ b.1)) :
    (insertByDate p l).Pairwise (fun a b => a.1 ≤ b.1) := by
  induction l with
  | nil => simp [insertByDate]
  | cons q t ih =>
    rw [List.pairwise_cons] at h
    unfold insertByDate
    split
    · rename_i hle
      rw [List.pairwise_cons]
      refine ⟨?_, List.pairwise_cons.mpr h⟩
      intro b hb
      rcases List.mem_cons.mp hb with rfl | hb2
      · exact hle
      · exact le_trans hle (h.1 b hb2)
    · rename_i hgt
      rw [List.pairwise_cons]
      refine ⟨?_, ih h.2⟩
      intro b hb
      rcases List.mem_cons.mp ((insertByDate_perm p t).mem_iff.mp hb) with rfl | hb2
      · exact le_of_not_le hgt
      · exact h.1 b hb2

theorem sortByDate_sorted (l : List (Nat × Issue)) :
    (sortByDate l).Pairwise (fun a b => a.1 ≤ b.1) := by
  induction l with
  | nil => exact List.Pairwise.nil
  | cons p t ih => exact insertByDate_sorted p (sortByDate t) ih

theorem map_snd_datedRecords (issues : List Issue) :
    (datedRecords issues).map Prod.snd
      = issues.filter (fun i => (getDate i).isSome) := by
  induction issues with
  | nil => rfl
  | cons i t ih =>
    unfold datedRecords at ih ⊢
    rw [List.filterMap_cons, List.filter_cons]
    cases hd : getDate i with
    | none => simpa [hd] using ih
    | some d => simpa [hd] using ih

theorem frameRows_mem (issues : List Issue) (q : Nat × Issue)
    (hq : q ∈ frameRows issues) : getDate q.2 = some q.1 := by
  have hq2 : q ∈ datedRecords issues :=
    (sortByDate_perm (datedRecords issues)).mem_iff.mp hq
  rw [datedRecords, List.mem_filterMap] at hq2
  obtain ⟨a, _, hfa⟩ := hq2
  cases hd : getDate a with
  | none => rw [hd] at hfa; exact absurd hfa (by simp)
  | some d =>
    rw [hd] at hfa
    simp only [Option.map_some', Option.some.injEq] at hfa
    rw [← hfa]
    exact hd

theorem hasDateCol_of_all_dated (issues : List Issue) (hne : issues ≠ [])
    (hd : ∀ i ∈ issues, (getDate i).isSome = true) :
    hasDateCol issues = true := by
  unfold hasDateCol
  rw [List.any_eq_true]
  cases issues with
  | nil => exact absurd rfl hne
  | cons i t =>
    refine ⟨i, List.mem_cons_self i t, ?_⟩
    have hdi := hd i (List.mem_cons_self i t)
    unfold getDate at hdi
    cases hf : getField "date" i with
    | none => rw [hf] at hdi; exact absurd hdi (by simp)
    | some v => simp [hf]

/-! ### Claim theorems: preprocessing and pipeline -/

/-- C6 counterexample: "1500-06-15" is a valid calendar date, yet the
program drops the record carrying it — `pd.to_datetime(errors="coerce")`
coerces dates outside the nanosecond `Timestamp` range (1677-09-22 through
2262-04-11) to `NaT`, and `dropna` removes the row — so date normalization
does not drop EXACTLY the records whose date field is not a valid calendar
date. -/
theorem preprocess_drops_valid_out_of_range_date :
    isValidCalendarDate "1500-06-15" = true
    ∧ hasDateCol [[("date", Json.str "1500-06-15")]] = true
    ∧ preprocess_issues [[("date", Json.str "1500-06-15")]] = Except.ok [] :=
  ⟨rfl, rfl, rfl⟩

/-- C6 (amended): when the frame has a date column and every date field is
absent, null, or a canonical `dddd-dd-dd`-shaped string, date normalization
never throws — `preprocess_issues` returns the frame — the surviving records
are exactly (as a multiset) those whose date field coerces successfully
(a valid calendar date within pandas' `Timestamp` range, 1677-09-22 through
2262-04-11), and every surviving row carries its successfully coerced
date. -/
theorem preprocess_drops_exactly_unparseable (issues : List Issue)
    (h : hasDateCol issues = true)
    (_hdwf : issues.all dateWellFormed = true) :
    preprocess_issues issues = Except.ok (frameRows issues)
    ∧ ((frameRows issues).map Prod.snd).Perm
        (issues.filter (fun i => (getDate i).isSome))
    ∧ ∀ q ∈ frameRows issues, getDate q.2 = some q.1 := by
  refine ⟨?_, ?_, fun q hq => frameRows_mem issues q hq⟩
  · unfold preprocess_issues; rw [if_pos h]
  · have hp := (sortByDate_perm (datedRecords issues)).map Prod.snd
    rw [map_snd_datedRecords] at hp
    exact hp

/-- Witness for C6 (amended): one coercible and one invalid-calendar date. -/
theorem preprocess_drops_exactly_unparseable_witness :
    preprocess_issues
        [[("date", Json.str "2021-01-01")], [("date", Json.str "2021-13-45")]]
      = Except.ok (frameRows
          [[("date", Json.str "2021-01-01")], [("date", Json.str "2021-13-45")]]) :=
  (preprocess_drops_exactly_unparseable
    [[("date", Json.str "2021-01-01")], [("date", Json.str "2021-13-45")]]
    (by rfl) (by rfl)).1

/-- C7: for every nonempty issue list all of whose dates coerce successfully
(canonical-form valid calendar dates within pandas' `Timestamp` range, per
`getDate`/`parseDate`), preprocessing succeeds and the chart-ready sequence
is sorted ascending by date; and on the spec's concrete example with dates
[2023-05-01, 2021-01-01, 2022-03-03] the processed sequence is ordered
[2021-01-01, 2022-03-03, 2023-05-01]. -/
theorem preprocess_sorted_by_date (issues : List Issue) (hne : issues ≠ [])
    (hd : ∀ i ∈ issues, (getDate i).isSome = true) :
    (preprocess_issues issues = Except.ok (frameRows issues)
      ∧ (frameRows issues).Pairwise (fun a b => a.1 ≤ b.1))
    ∧ frameRows [[("date", Json.str "2023-05-01")],
        [("date", Json.str "2021-01-01")], [("date", Json.str "2022-03-03")]]
      = [(20210101, [("date", Json.str "2021-01-01")]),
         (20220303, [("date", Json.str "2022-03-03")]),
         (20230501, [("date", Json.str "2023-05-01")])] := by
  refine ⟨⟨?_, sortByDate_sorted _⟩, rfl⟩
  unfold preprocess_issues
  rw [if_pos (hasDateCol_of_all_dated issues hne hd)]

/-- Witness for C7 at the spec's concrete example. -/
theorem preprocess_sorted_by_date_witness :
    preprocess_issues [[("date", Json.str "2023-05-01")],
        [("date", Json.str "2021-01-01")], [("date", Json.str "2022-03-03")]]
      = Except.ok (frameRows [[("date", Json.str "2023-05-01")],
        [("date", Json.str "2021-01-01")], [("date", Json.str "2022-03-03")]]) :=
  ((preprocess_sorted_by_date _ (by simp) (by
      intro i hi
      simp only [List.mem_cons, List.not_mem_nil, or_false] at hi
      rcases hi with rfl | rfl | rfl <;> rfl)).1).1

/-- C5: the risk classifier computes its rating from the raw parsed list — of
which the record `r` with unparseable date is a member, so it enters `count`
— while the chart-ready frame excludes `r`.  Stated over lists whose date
fields are absent, null, or canonical-shaped strings (`dateWellFormed`), the
domain on which `getDate` matches pandas' coercion, and whose severities are
strings where present. -/
theorem classifier_raw_chart_filtered (issues : List Issue) (r : Issue)
    (_hr : r ∈ issues) (hdate : getDate r = none)
    (hwf : issues.all wellFormedSev = true)
    (_hdwf : issues.all dateWellFormed = true) :
    (assess_risk issues).map (fun p => ratingName p.1)
        = Except.ok (classifySpec issues)
    ∧ ∀ q ∈ frameRows issues, q.2 ≠ r := by
  refine ⟨assess_risk_eq_spec issues hwf, fun q hq hq2 => ?_⟩
  have hqd := frameRows_mem issues q hq
  rw [hq2, hdate] at hqd
  cases hqd

/-- Witness for C5: a record with an invalid (month 13) date and low
severity. -/
theorem classifier_raw_chart_filtered_witness :
    (assess_risk
        [[("date", Json.str "2021-13-01"), ("severity", Json.str "low")]]).map
        (fun p => ratingName p.1)
      = Except.ok (classifySpec
          [[("date", Json.str "2021-13-01"), ("severity", Json.str "low")]])
    ∧ ∀ q ∈ frameRows
        [[("date", Json.str "2021-13-01"), ("severity", Json.str "low")]],
        q.2 ≠ [("date", Json.str "2021-13-01"), ("severity", Json.str "low")] :=
  classifier_raw_chart_filtered _ _ (List.mem_singleton.mpr rfl) rfl rfl rfl

/-- C4 counterexample: a parsed issue list whose records lack a `date` key
makes the pipeline terminate abnormally — `df["date"]` on line 71 raises an
uncaught `KeyError` — contradicting "never terminates abnormally". -/
theorem pipeline_keyerror_on_dateless_records :
    runMain [[("description", Json.str "x")]] = Except.error "KeyError: date"
    ∧ preprocess_issues [[("description", Json.str "x")]]
        = Except.error "KeyError: date" := ⟨rfl, rfl⟩

/-- C4 (amended): the pipeline completes without an uncaught exception on an
empty parsed list and on any parsed list in which some record carries a
`date` key and severity values are strings where present.  (Without a `date`
key anywhere, preprocessing raises `KeyError`; a non-string severity makes
`assess_risk` raise `AttributeError`.) -/
theorem pipeline_no_uncaught_exception (issues : List Issue)
    (h : issues.isEmpty = true
        ∨ (hasDateCol issues = true ∧ issues.all wellFormedSev = true)) :
    ∃ out, runMain issues = Except.ok out := by
  by_cases he : issues.isEmpty = true
  · exact ⟨MainOut.noIssues, by unfold runMain; rw [if_pos he]⟩
  · rcases h with h | ⟨h1, h2⟩
    · exact absurd h he
    · have hpre : preprocess_issues issues = Except.ok (frameRows issues) := by
        unfold preprocess_issues; rw [if_pos h1]
      obtain ⟨rp, hrp⟩ : ∃ rp, assess_risk issues = Except.ok rp := by
        unfold assess_risk
        rw [if_pos h2]
        dsimp only
        split_ifs <;> exact ⟨_, rfl⟩
      refine ⟨MainOut.report issues.length rp (frameRows issues), ?_⟩
      unfold runMain
      rw [if_neg he, hpre, hrp]
      rfl

/-- Witness for C4 (amended). -/
theorem pipeline_no_uncaught_exception_witness :
    ∃ out, runMain [[("date", Json.str "2021-01-01")]] = Except.ok out :=
  pipeline_no_uncaught_exception _ (Or.inr ⟨rfl, rfl⟩)

/-! ### Claim theorems: fetch boundary -/

/-- C8: on any non-200 HTTP response, `fetch_issues` reports exactly one
error â whose text contains the status code and the body text â returns the
empty result, and makes exactly one request (there is no retry). -/
theorem fetch_non200_short_circuits (resp : HttpResponse)
    (h : resp.status ≠ 200) :
    fetch_issues resp =
      { errors := ["Gemini API error " ++ toString resp.status ++ ": " ++ resp.text],
        retval := Json.arr [], requestsMade := 1 }
    ∧ (∃ pre post : List Char,
        ("Gemini API error " ++ toString resp.status ++ ": " ++ resp.text).data
          = pre ++ (toString resp.status).data ++ post)
    ∧ (∃ pre post : List Char,
        ("Gemini API error " ++ toString resp.status ++ ": " ++ resp.text).data
          = pre ++ resp.text.data ++ post) := by
  refine ⟨by unfold fetch_issues; rw [if_pos h],
    ⟨"Gemini API error ".data, (": " ++ resp.text).data, ?_⟩,
    ⟨("Gemini API error " ++ toString resp.status ++ ": ").data, [], ?_⟩⟩
  · simp [String.data_append]
  · simp [String.data_append]

/-- Witness for C8 at status 500. -/
theorem fetch_non200_short_circuits_witness :
    fetch_issues { status := 500, text := "oops", body := none } =
      { errors := ["Gemini API error " ++ toString (500 : Nat) ++ ": " ++ "oops"],
        retval := Json.arr [], requestsMade := 1 } :=
  (fetch_non200_short_circuits { status := 500, text := "oops", body := none }
    (by decide)).1

/-- C3: on any parse failure of the (fence-stripped) completion text, the
interpreter returns the empty sequence, and at the fetch boundary the
`except` handler reports a user-visible error and returns the empty sequence
â it never raises past the boundary (in the model, `fetch_issues` and
`interpret` are total functions). -/
theorem parse_failure_yields_empty (raw : List Char)
    (hp : json_loads (pyFenceStrip raw) = none) :
    interpret raw = Json.arr []
    ∧ ∀ resp : HttpResponse, resp.status = 200 →
        resp.body.bind extractText = some raw →
        fetch_issues resp =
          { errors := ["❌ Could not parse response from Gemini"],
            retval := Json.arr [], requestsMade := 1 } := by
  constructor
  · unfold interpret; rw [hp]
  · intro resp h200 hbody
    unfold fetch_issues
    rw [if_neg (fun hne => hne h200), hbody]
    dsimp only
    rw [hp]

/-- Witness for C3: a 200 response whose completion text is not JSON. -/
theorem parse_failure_yields_empty_witness :
    fetch_issues
      { status := 200, text := "",
        body := some (Json.obj [("candidates", Json.arr [Json.obj
          [("content", Json.obj [("parts", Json.arr [Json.obj
            [("text", Json.str "not json")]])])]])]) } =
      { errors := ["❌ Could not parse response from Gemini"],
        retval := Json.arr [], requestsMade := 1 } :=
  (parse_failure_yields_empty "not json".data rfl).2
    { status := 200, text := "",
      body := some (Json.obj [("candidates", Json.arr [Json.obj
        [("content", Json.obj [("parts", Json.arr [Json.obj
          [("text", Json.str "not json")]])])]])]) } rfl rfl

/-! ### Python strip lemmas (for the fence-transparency claim) -/

theorem pyStrip_cons_of_pos (p : Char → Bool) (a : Char) (l : List Char)
    (h : p a = true) : pyStrip p (a :: l) = pyStrip p l := by
  unfold pyStrip
  rw [List.dropWhile_cons_of_pos h]

theorem pyStrip_concat_of_pos (p : Char → Bool) (b : Char) (l : List Char)
    (h : p b = true) : pyStrip p (l ++ [b]) = pyStrip p l := by
  unfold pyStrip
  rcases hdw : l.dropWhile p with _ | ⟨c, t⟩
  · have h2 : (l ++ [b]).dropWhile p = [] := by
      rw [List.dropWhile_append, hdw]
      simp [h]
    rw [h2]
  · have h2 : (l ++ [b]).dropWhile p = l.dropWhile p ++ [b] := by
      rw [List.dropWhile_append, hdw]
      simp
    rw [h2, hdw, List.reverse_append]
    simp only [List.reverse_cons, List.reverse_nil, List.nil_append,
      List.singleton_append]
    rw [List.dropWhile_cons_of_pos h]

theorem pyStrip_no_strip (p : Char → Bool) (a b : Char) (l : List Char)
    (ha : p a = false) (hb : p b = false) :
    pyStrip p (a :: (l ++ [b])) = a :: (l ++ [b]) := by
  unfold pyStrip
  rw [List.dropWhile_cons_of_neg (by simp [ha])]
  rw [List.reverse_cons, List.reverse_append]
  simp only [List.reverse_cons, List.reverse_nil, List.nil_append,
    List.singleton_append, List.cons_append]
  rw [List.dropWhile_cons_of_neg (by simp [hb])]
  simp [List.reverse_append]

theorem dropWhile_getLast?_of_ne_nil (p : Char → Bool) (l : List Char)
    (h : l.dropWhile p ≠ []) : (l.dropWhile p).getLast? = l.getLast? := by
  conv_rhs => rw [← List.takeWhile_append_dropWhile (p := p) (l := l)]
  rw [List.getLast?_append]
  cases hg : (l.dropWhile p).getLast? with
  | none => exact absurd (List.getLast?_eq_none_iff.mp hg) h
  | some c => rfl

theorem dropWhile_head_false (p : Char → Bool) (l : List Char) (c : Char)
    (h : (l.dropWhile p).head? = some c) : p c = false := by
  have h2 := List.head?_dropWhile_not p l
  rw [h] at h2
  exact h2

theorem pyStrip_getLast_false (p : Char → Bool) (l : List Char) (c : Char)
    (h : (pyStrip p l).getLast? = some c) : p c = false := by
  unfold pyStrip at h
  rw [List.getLast?_reverse] at h
  exact dropWhile_head_false p _ c h

theorem pyStrip_head_false (p : Char → Bool) (l : List Char) (c : Char)
    (h : (pyStrip p l).head? = some c) : p c = false := by
  unfold pyStrip at h
  rw [List.head?_reverse] at h
  have hne : (l.dropWhile p).reverse.dropWhile p ≠ [] := by
    intro hnil
    rw [hnil] at h
    exact absurd h (by simp)
  rw [dropWhile_getLast?_of_ne_nil p _ hne, List.getLast?_reverse] at h
  exact dropWhile_head_false p l c h

theorem pyStrip_eq_self (q : Char → Bool) (m : List Char)
    (h1 : ∀ c, m.head? = some c → q c = false)
    (h2 : ∀ c, m.getLast? = some c → q c = false) :
    pyStrip q m = m := by
  have hd : m.dropWhile q = m := by
    cases m with
    | nil => rfl
    | cons a t => exact List.dropWhile_cons_of_neg (by simp [h1 a rfl])
  unfold pyStrip
  rw [hd]
  have hr : m.reverse.dropWhile q = m.reverse := by
    cases hm : m.reverse with
    | nil => rfl
    | cons a t =>
      have ha : m.getLast? = some a := by
        rw [← List.head?_reverse, hm]
        rfl
      rw [List.dropWhile_cons_of_neg (by simp [h2 a ha])]
  rw [hr, List.reverse_reverse]

theorem isPyWs_of_isJsonWs (c : Char) (h : isJsonWs c = true) :
    isPyWs c = true := by
  unfold isJsonWs at h
  simp only [Bool.or_eq_true, beq_iff_eq] at h
  rcases h with ((rfl | rfl) | rfl) | rfl <;> rfl

theorem jsonTrim_pyStrip (l : List Char) :
    pyStrip isJsonWs (pyStrip isPyWs l) = pyStrip isPyWs l := by
  refine pyStrip_eq_self isJsonWs (pyStrip isPyWs l) ?_ ?_
  · intro c hc
    have hpw := pyStrip_head_false isPyWs l c hc
    cases hj : isJsonWs c with
    | false => rfl
    | true => rw [isPyWs_of_isJsonWs c hj] at hpw; cases hpw
  · intro c hc
    have hpw := pyStrip_getLast_false isPyWs l c hc
    cases hj : isJsonWs c with
    | false => rfl
    | true => rw [isPyWs_of_isJsonWs c hj] at hpw; cases hpw

/-! ### Fence-stripping computations -/

theorem pyStrip_wrapJson (inner : List Char) :
    pyStrip inJsonFenceSet (wrapJson inner) = '\n' :: (inner ++ ['\n']) := by
  unfold pyStrip
  rw [show (wrapJson inner).dropWhile inJsonFenceSet
      = '\n' :: (inner ++ ('\n' :: "```".data)) from rfl]
  rw [List.reverse_cons, List.reverse_append,
    show ('\n' :: "```".data).reverse = "```\n".data from rfl,
    List.append_assoc,
    show ∀ Y : List Char, ("```\n".data ++ Y).dropWhile inJsonFenceSet
      = '\n' :: Y from fun Y => rfl]
  simp [List.reverse_append]

theorem pyStrip_wrapPlain (inner : List Char) :
    pyStrip isBtick (wrapPlain inner) = '\n' :: (inner ++ ['\n']) := by
  unfold pyStrip
  rw [show (wrapPlain inner).dropWhile isBtick
      = '\n' :: (inner ++ ('\n' :: "```".data)) from rfl]
  rw [List.reverse_cons, List.reverse_append,
    show ('\n' :: "```".data).reverse = "```\n".data from rfl,
    List.append_assoc,
    show ∀ Y : List Char, ("```\n".data ++ Y).dropWhile isBtick
      = '\n' :: Y from fun Y => rfl]
  simp [List.reverse_append]

theorem pyFenceStrip_wrapJson (inner : List Char) :
    pyFenceStrip (wrapJson inner) = pyStrip isPyWs inner := by
  unfold pyFenceStrip
  rw [if_pos (show List.isPrefixOf "```json".data (wrapJson inner) = true
    from rfl)]
  rw [pyStrip_wrapJson]
  rw [pyStrip_no_strip isBtick '\n' '\n' inner rfl rfl]
  rw [pyStrip_cons_of_pos isPyWs '\n' _ rfl]
  exact pyStrip_concat_of_pos isPyWs '\n' inner rfl

theorem pyFenceStrip_wrapPlain (inner : List Char) :
    pyFenceStrip (wrapPlain inner) = pyStrip isPyWs inner := by
  unfold pyFenceStrip
  rw [if_neg (show ¬ List.isPrefixOf "```json".data (wrapPlain inner) = true
    from fun h => Bool.noConfusion (show (false : Bool) = true from h))]
  rw [if_pos (show List.isPrefixOf "```".data (wrapPlain inner) = true
    from rfl)]
  rw [pyStrip_wrapPlain]
  rw [pyStrip_cons_of_pos isPyWs '\n' _ rfl]
  exact pyStrip_concat_of_pos isPyWs '\n' inner rfl

theorem not_fenceJson_prefixed (inner : List Char)
    (hnf : List.isPrefixOf "```".data inner = false) :
    ¬ List.isPrefixOf "```json".data inner = true := by
  intro h
  have h2 : List.isPrefixOf "```".data inner = true :=
    List.isPrefixOf_iff_prefix.mpr
      (List.IsPrefix.trans ⟨"json".data, rfl⟩
        (List.isPrefixOf_iff_prefix.mp h))
  rw [hnf] at h2
  cases h2

theorem pyFenceStrip_no_fence (inner : List Char)
    (hnf : List.isPrefixOf "```".data inner = false) :
    pyFenceStrip inner = inner := by
  unfold pyFenceStrip
  rw [if_neg (not_fenceJson_prefixed inner hnf),
    if_neg (fun h : List.isPrefixOf "```".data inner = true => by
      rw [hnf] at h; cases h)]

/-! ### Claim theorems: fence transparency -/

/-- C2 counterexample: for the inner text "\x0b[1]" â flanked by a vertical
tab, which Python's no-argument `strip()` removes but the JSON grammar
rejects â the fenced completion parses to `[1]` while the bare inner text
fails to parse (yielding the empty fallback), so the interpreter does NOT
produce the same parsed result for the wrapped and unwrapped text. -/
theorem fence_stripping_not_transparent :
    interpret (wrapJson "\x0b[1]".data) = Json.arr [Json.num 1]
    ∧ interpret "\x0b[1]".data = Json.arr []
    ∧ interpret (wrapJson "\x0b[1]".data) ≠ interpret "\x0b[1]".data := by
  refine ⟨rfl, rfl, fun h => ?_⟩
  have h1 : Json.arr [Json.num 1] = Json.arr [] := h
  injection h1 with h2
  exact List.noConfusion h2

/-- C2 (amended): for any completion text wrapped in a fence (with the
`json` tag or untagged), the interpreter produces the same parsed result as
for the unwrapped inner text, provided the inner text does not itself start
with a fence marker and stripping Python whitespace from its ends agrees
with stripping JSON whitespace — i.e. it is not flanked by characters that
Python's `str.strip()` removes but the JSON grammar rejects (vertical tab,
form feed, `\x1c`-`\x1f`, `\x85`, `\xa0`, or a Unicode space, all listed in
`pyWsCodes`; the counterexample uses the vertical tab). -/
theorem fence_stripping_transparent (inner : List Char)
    (hnf : List.isPrefixOf "```".data inner = false)
    (hws : pyStrip isPyWs inner = pyStrip isJsonWs inner) :
    interpret (wrapJson inner) = interpret inner
    ∧ interpret (wrapPlain inner) = interpret inner := by
  have key : json_loads (pyStrip isPyWs inner) = json_loads inner := by
    unfold json_loads
    rw [jsonTrim_pyStrip inner, hws]
  constructor
  · unfold interpret
    rw [pyFenceStrip_wrapJson, pyFenceStrip_no_fence inner hnf, key]
  · unfold interpret
    rw [pyFenceStrip_wrapPlain, pyFenceStrip_no_fence inner hnf, key]

/-- Witness for C2 (amended) with inner text "[1]". -/
theorem fence_stripping_transparent_witness :
    interpret (wrapJson "[1]".data) = interpret "[1]".data
    ∧ interpret (wrapPlain "[1]".data) = interpret "[1]".data :=
  fence_stripping_transparent "[1]".data rfl rfl

end ProblemsApp
